import Mathlib

/-
Verification of env_util_rs (src/src/env_util.rs): a staged pipeline for
reading environment variables. Stages: Raw (key plus optional OS value),
Valid (key plus validated string), Parsed (key, original string, typed value).
The shallow embedding below translates the Rust source; the process
environment is passed explicitly as a function from keys to optional
OS values, and the std OsString type is modelled abstractly by the two
operations the source uses on it (into_string and to_string_lossy).
-/

namespace EnvUtil

/-- Abstract model of the std library type OsString, which the source code of
env_util.rs only consumes through into_string (succeeds exactly when the
content is valid Unicode, otherwise returns the OsString back) and
to_string_lossy (best-effort text with invalid sequences replaced). An
OS value is therefore either valid text, or invalid content remembered
together with its lossy rendering. -/
inductive OsString where
  | valid (s : String)
  | invalid (lossy : String)
deriving DecidableEq, Repr

/-- Models OsString::into_string: Ok with the text when the content is valid
Unicode, Err returning the original OsString otherwise. -/
def OsString.into_string : OsString → Except OsString String
  | .valid s => .ok s
  | .invalid l => .error (.invalid l)

/-- Models OsStr::to_string_lossy (as used after into_string fails, and on
valid content where it is the identity). -/
def OsString.to_string_lossy : OsString → String
  | .valid s => s
  | .invalid l => l

/-- Modelled from the spec: the Error taxonomy lives in src/error.rs, which is
not under src/ (env_util.rs only constructs MissingError, InvalidUnicodeError
and ParseError values and converts them into Error). Section 4.5 of the spec
fixes the three variants and their payloads: Missing carries the key;
InvalidUnicode carries the key and the lossily decoded value; Parse carries
the key, the original string, names of the source and target types, and the
underlying failure as an embedded cause. The cause (a boxed dynamic error in
the source) is modelled as its type-erased rendering, a String. -/
inductive Error where
  | missing (key : String)
  | invalidUnicode (key : String) (value : String)
  | parse (key : String) (value : String) (fromT : String) (toT : String) (err : String)
deriving DecidableEq, Repr

/-- The key carried by an error: every variant of the taxonomy carries one. -/
def Error.key : Error → String
  | .missing k => k
  | .invalidUnicode k _ => k
  | .parse k _ _ _ _ => k

/-- The Raw stage: a key together with the optional OS value looked up for it. -/
structure Raw where
  key : String
  value : Option OsString
deriving DecidableEq, Repr

/-- The Valid stage: a key together with a validated text value. -/
structure Valid where
  key : String
  value : String
deriving DecidableEq, Repr

/-- The Parsed stage: a key, the original validated string kept for
diagnostics, and the typed value produced by conversion. -/
structure Parsed (P : Type) where
  key : String
  value : String
  inner : P
deriving DecidableEq, Repr

/-- The process environment, the sole external collaborator: a map from keys
to optional possibly-non-text values, modelling std env::var_os. -/
abbrev Env := String → Option OsString

/-- Models the get function: wraps the key and the result of the var_os
lookup into a Raw stage. The ambient process environment of the source
becomes an explicit argument. -/
def get (env : Env) (key : String) : Raw :=
  { key := key, value := env key }

/-- State-passing form of get, making explicit that var_os only reads the
environment and performs no write: the environment is returned unchanged
alongside the Raw result. -/
def getS (env : Env) (key : String) : Raw × Env :=
  ({ key := key, value := env key }, env)

/-- Models Raw::into_inner: returns the wrapped optional OS value. -/
def Raw.into_inner (self : Raw) : Option OsString :=
  self.value

/-- Models Raw::required_unchecked. -/
def Raw.required_unchecked (self : Raw) : Except Error Valid :=
  match self.value with
  | some osstring =>
    match osstring.into_string with
    | .ok string => .ok { key := self.key, value := string }
    | .error osstring => .ok { key := self.key, value := osstring.to_string_lossy }
  | none => .error (.missing self.key)

/-- Models Raw::required_checked. -/
def Raw.required_checked (self : Raw) : Except Error Valid :=
  match self.value with
  | some osstring =>
    match osstring.into_string with
    | .ok string => .ok { key := self.key, value := string }
    | .error osstring => .error (.invalidUnicode self.key osstring.to_string_lossy)
  | none => .error (.missing self.key)

/-- Models Raw::optional_unchecked. -/
def Raw.optional_unchecked (self : Raw) : Option Valid :=
  match self.value with
  | some osstring =>
    match osstring.into_string with
    | .ok string => some { key := self.key, value := string }
    | .error osstring => some { key := self.key, value := osstring.to_string_lossy }
  | none => none

/-- Models Raw::optional_checked. -/
def Raw.optional_checked (self : Raw) : Except Error (Option Valid) :=
  match self.value with
  | some osstring =>
    match osstring.into_string with
    | .ok string => .ok (some { key := self.key, value := string })
    | .error osstring => .error (.invalidUnicode self.key osstring.to_string_lossy)
  | none => .ok none

/-- Models Raw::with_default_unchecked. -/
def Raw.with_default_unchecked (self : Raw) (default : String) : Valid :=
  match self.value with
  | some osstring =>
    match osstring.into_string with
    | .ok string => { key := self.key, value := string }
    | .error osstring => { key := self.key, value := osstring.to_string_lossy }
  | none => { key := self.key, value := default }

/-- Models Raw::with_default_unchecked_sub_invalid. -/
def Raw.with_default_unchecked_sub_invalid (self : Raw) (default : String) : Valid :=
  match self.value with
  | some osstring =>
    match osstring.into_string with
    | .ok string => { key := self.key, value := string }
    | .error _ => { key := self.key, value := default }
  | none => { key := self.key, value := default }

/-- Models Raw::with_default_checked. -/
def Raw.with_default_checked (self : Raw) (default : String) : Except Error Valid :=
  match self.value with
  | some osstring =>
    match osstring.into_string with
    | .ok string => .ok { key := self.key, value := string }
    | .error osstring => .error (.invalidUnicode self.key osstring.to_string_lossy)
  | none => .ok { key := self.key, value := default }

/-- Models Valid::into_inner: returns the validated string. -/
def Valid.into_inner (self : Valid) : String :=
  self.value

/-- Models Valid::then_try_fromstr_into. The FromStr implementation of the
target type T becomes the explicit function fromStr (failures type-erased to
String, as the source boxes them), and type_name of T becomes the explicit
string tyT; type_name of the &str source is the literal string ampersand-str. -/
def Valid.then_try_fromstr_into {T : Type} (tyT : String)
    (fromStr : String → Except String T) (self : Valid) : Except Error (Parsed T) :=
  match fromStr self.value with
  | .ok parsed => .ok { inner := parsed, key := self.key, value := self.value }
  | .error err => .error (.parse self.key self.value "&str" tyT err)

/-- Models Valid::then_string_into, with the Into implementation of T from
String as the explicit function intoFn. -/
def Valid.then_string_into {T : Type} (intoFn : String → T) (self : Valid) : Parsed T :=
  { inner := intoFn self.value, key := self.key, value := self.value }

/-- Models Valid::then_try_string_into; type_name of String renders as
alloc::string::String. -/
def Valid.then_try_string_into {T : Type} (tyT : String)
    (tryIntoFn : String → Except String T) (self : Valid) : Except Error (Parsed T) :=
  match tryIntoFn self.value with
  | .ok parsed => .ok { inner := parsed, key := self.key, value := self.value }
  | .error err => .error (.parse self.key self.value "alloc::string::String" tyT err)

/-- Models Valid::then_str_into (the borrowing Into conversion). -/
def Valid.then_str_into {T : Type} (intoFn : String → T) (self : Valid) : Parsed T :=
  { inner := intoFn self.value, key := self.key, value := self.value }

/-- Models Valid::then_try_str_into (the borrowing TryInto conversion). -/
def Valid.then_try_str_into {T : Type} (tyT : String)
    (tryIntoFn : String → Except String T) (self : Valid) : Except Error (Parsed T) :=
  match tryIntoFn self.value with
  | .ok parsed => .ok { inner := parsed, key := self.key, value := self.value }
  | .error err => .error (.parse self.key self.value "&str" tyT err)

/-- Models Valid::then_fn_string_into: a caller-supplied function on the
owned string. -/
def Valid.then_fn_string_into {T : Type} (f : String → T) (self : Valid) : Parsed T :=
  { inner := f self.value, key := self.key, value := self.value }

/-- Models Valid::then_try_fn_string_into: a caller-supplied fallible
function on the owned string; the source names the source type via
type_name of String. -/
def Valid.then_try_fn_string_into {T : Type} (tyT : String)
    (f : String → Except String T) (self : Valid) : Except Error (Parsed T) :=
  match f self.value with
  | .ok parsed => .ok { inner := parsed, key := self.key, value := self.value }
  | .error err => .error (.parse self.key self.value "alloc::string::String" tyT err)

/-- Models Valid::then_fn_str_into: a caller-supplied function on a borrowed
view of the string. -/
def Valid.then_fn_str_into {T : Type} (f : String → T) (self : Valid) : Parsed T :=
  { inner := f self.value, key := self.key, value := self.value }

/-- Models Valid::then_try_fn_str_into: a caller-supplied fallible function
on a borrowed view; the source names the source type via type_name of &str. -/
def Valid.then_try_fn_str_into {T : Type} (tyT : String)
    (f : String → Except String T) (self : Valid) : Except Error (Parsed T) :=
  match f self.value with
  | .ok parsed => .ok { inner := parsed, key := self.key, value := self.value }
  | .error err => .error (.parse self.key self.value "&str" tyT err)

/-- Models Parsed::into_inner: returns the typed value, discarding key and
diagnostic string. -/
def Parsed.into_inner {P : Type} (self : Parsed P) : P :=
  self.inner

/-- Models Parsed::then_into, with the Into implementation from P to T as the
explicit function intoFn. -/
def Parsed.then_into {P T : Type} (intoFn : P → T) (self : Parsed P) : Parsed T :=
  { inner := intoFn self.inner, key := self.key, value := self.value }

/-- Models Parsed::then_try_into: tyP and tyT are the type_name strings of P
and T used in the Parse error. -/
def Parsed.then_try_into {P T : Type} (tyP tyT : String)
    (tryIntoFn : P → Except String T) (self : Parsed P) : Except Error (Parsed T) :=
  match tryIntoFn self.inner with
  | .ok parsed => .ok { inner := parsed, key := self.key, value := self.value }
  | .error err => .error (.parse self.key self.value tyP tyT err)

/-- Models Parsed::then_fn_into: a caller-supplied function on the typed
value. -/
def Parsed.then_fn_into {P T : Type} (f : P → T) (self : Parsed P) : Parsed T :=
  { inner := f self.inner, key := self.key, value := self.value }

/-- Models Parsed::then_try_fn_into: a caller-supplied fallible function on
the typed value. -/
def Parsed.then_try_fn_into {P T : Type} (tyP tyT : String)
    (f : P → Except String T) (self : Parsed P) : Except Error (Parsed T) :=
  match f self.inner with
  | .ok parsed => .ok { inner := parsed, key := self.key, value := self.value }
  | .error err => .error (.parse self.key self.value tyP tyT err)

/-- Model of the standard FromStr implementation for u32, used to instantiate
the pipeline at a concrete integer target: a string of decimal digits that is
nonempty and fits in 32 bits parses to its value, an empty string or a
non-digit character or an overflow is an error (with the messages of the
std integer parser). -/
def parse_u32 (s : String) : Except String Nat :=
  if s.data.isEmpty then .error "cannot parse integer from empty string"
  else if s.data.all Char.isDigit then
    let n := s.data.foldl (fun acc c => acc * 10 + (c.toNat - 48)) 0
    if n < 2 ^ 32 then .ok n
    else .error "number too large to fit in target type"
  else .error "invalid digit found in string"

/-- Observer for stating value preservation uniformly over fallible
transitions: the diagnostic string visible in a transition result, namely the
value field of a produced Parsed stage, or the value field of a produced
Parse error (none for the other error variants, which these transitions
never produce). -/
def resultValue {T : Type} : Except Error (Parsed T) → Option String
  | .ok p => some p.value
  | .error (.parse _ v _ _ _) => some v
  | .error _ => none

/-- Observer for stating key preservation uniformly over results that are a
Valid stage or an error. -/
def resultKeyV : Except Error Valid → String
  | .ok v => v.key
  | .error e => e.key

/-- Observer for stating key preservation uniformly over results that are a
Parsed stage or an error. -/
def resultKeyP {T : Type} : Except Error (Parsed T) → String
  | .ok p => p.key
  | .error e => e.key

/-- C1: for every key absent from the environment, required_unchecked and
required_checked return a Missing error; optional_unchecked returns no value
and optional_checked returns Ok of no value (never an error); and all three
with_default operations return (never an error) a Valid stage holding the
supplied default. -/
theorem c1_absent_key_behavior (k d : String) :
    (Raw.mk k none).required_unchecked = .error (.missing k) ∧
    (Raw.mk k none).required_checked = .error (.missing k) ∧
    (Raw.mk k none).optional_unchecked = none ∧
    (Raw.mk k none).optional_checked = .ok none ∧
    (Raw.mk k none).with_default_unchecked d = Valid.mk k d ∧
    (Raw.mk k none).with_default_unchecked_sub_invalid d = Valid.mk k d ∧
    (Raw.mk k none).with_default_checked d = .ok (Valid.mk k d) :=
  ⟨rfl, rfl, rfl, rfl, rfl, rfl, rfl⟩

/-- C2: for every key present with a non-Unicode value whose lossy rendering
is l, the checked operations return an InvalidUnicode error carrying l; the
unchecked operations return a Valid stage whose string is that same l; and
with_default_unchecked_sub_invalid returns a Valid stage holding the supplied
default instead of any rendering of the value. -/
theorem c2_invalid_unicode_behavior (k l d : String) :
    (Raw.mk k (some (.invalid l))).required_checked = .error (.invalidUnicode k l) ∧
    (Raw.mk k (some (.invalid l))).optional_checked = .error (.invalidUnicode k l) ∧
    (Raw.mk k (some (.invalid l))).with_default_checked d = .error (.invalidUnicode k l) ∧
    (Raw.mk k (some (.invalid l))).required_unchecked = .ok (Valid.mk k l) ∧
    (Raw.mk k (some (.invalid l))).optional_unchecked = some (Valid.mk k l) ∧
    (Raw.mk k (some (.invalid l))).with_default_unchecked d = Valid.mk k l ∧
    (Raw.mk k (some (.invalid l))).with_default_unchecked_sub_invalid d = Valid.mk k d :=
  ⟨rfl, rfl, rfl, rfl, rfl, rfl, rfl⟩

/-- C3: for every key present with a valid Unicode value s, all seven Raw
stage operations succeed and produce a Valid stage whose string is exactly s,
unchanged. -/
theorem c3_valid_text_preserved (k s d : String) :
    (Raw.mk k (some (.valid s))).required_unchecked = .ok (Valid.mk k s) ∧
    (Raw.mk k (some (.valid s))).required_checked = .ok (Valid.mk k s) ∧
    (Raw.mk k (some (.valid s))).optional_unchecked = some (Valid.mk k s) ∧
    (Raw.mk k (some (.valid s))).optional_checked = .ok (some (Valid.mk k s)) ∧
    (Raw.mk k (some (.valid s))).with_default_unchecked d = Valid.mk k s ∧
    (Raw.mk k (some (.valid s))).with_default_unchecked_sub_invalid d = Valid.mk k s ∧
    (Raw.mk k (some (.valid s))).with_default_checked d = .ok (Valid.mk k s) :=
  ⟨rfl, rfl, rfl, rfl, rfl, rfl, rfl⟩

/-- C4: every fallible conversion entry point of the Valid stage
(then_try_fromstr_into, then_try_string_into, then_try_str_into,
then_try_fn_string_into, then_try_fn_str_into) and of the Parsed stage
(then_try_into, then_try_fn_into), when the underlying conversion fails,
returns a Parse error carrying the key, the original validated string, the
type_name of the source type, the type_name of the target type, and the
underlying failure as the embedded cause; in particular parsing the string
abc as a 32-bit integer yields a Parse error naming the string source type
and the integer target type, with the failure of the integer parser as
cause. -/
theorem c4_parse_error_payload :
    (∀ (T : Type) (tyT : String) (f : String → Except String T) (v : Valid) (e : String),
      f v.value = .error e →
      v.then_try_fromstr_into tyT f = .error (.parse v.key v.value "&str" tyT e)) ∧
    (∀ (T : Type) (tyT : String) (f : String → Except String T) (v : Valid) (e : String),
      f v.value = .error e →
      v.then_try_string_into tyT f = .error (.parse v.key v.value "alloc::string::String" tyT e)) ∧
    (∀ (T : Type) (tyT : String) (f : String → Except String T) (v : Valid) (e : String),
      f v.value = .error e →
      v.then_try_str_into tyT f = .error (.parse v.key v.value "&str" tyT e)) ∧
    (∀ (T : Type) (tyT : String) (f : String → Except String T) (v : Valid) (e : String),
      f v.value = .error e →
      v.then_try_fn_string_into tyT f =
        .error (.parse v.key v.value "alloc::string::String" tyT e)) ∧
    (∀ (T : Type) (tyT : String) (f : String → Except String T) (v : Valid) (e : String),
      f v.value = .error e →
      v.then_try_fn_str_into tyT f = .error (.parse v.key v.value "&str" tyT e)) ∧
    (∀ (P T : Type) (tyP tyT : String) (f : P → Except String T) (p : Parsed P) (e : String),
      f p.inner = .error e →
      p.then_try_into tyP tyT f = .error (.parse p.key p.value tyP tyT e)) ∧
    (∀ (P T : Type) (tyP tyT : String) (f : P → Except String T) (p : Parsed P) (e : String),
      f p.inner = .error e →
      p.then_try_fn_into tyP tyT f = .error (.parse p.key p.value tyP tyT e)) ∧
    (Valid.mk "PORT" "abc").then_try_fromstr_into "u32" parse_u32 =
      .error (.parse "PORT" "abc" "&str" "u32" "invalid digit found in string") := by
  refine ⟨?_, ?_, ?_, ?_, ?_, ?_, ?_, ?_⟩
  · intro T tyT f v e h; simp [Valid.then_try_fromstr_into, h]
  · intro T tyT f v e h; simp [Valid.then_try_string_into, h]
  · intro T tyT f v e h; simp [Valid.then_try_str_into, h]
  · intro T tyT f v e h; simp [Valid.then_try_fn_string_into, h]
  · intro T tyT f v e h; simp [Valid.then_try_fn_str_into, h]
  · intro P T tyP tyT f p e h; simp [Parsed.then_try_into, h]
  · intro P T tyP tyT f p e h; simp [Parsed.then_try_fn_into, h]
  · rfl

/-- Closed witness for C4: the first conjunct applied at a concrete failing
conversion (the integer parser on the string abc). -/
theorem c4_parse_error_payload_witness :
    (Valid.mk "KEY" "abc").then_try_fromstr_into "u32" parse_u32 =
      .error (.parse "KEY" "abc" "&str" "u32" "invalid digit found in string") :=
  c4_parse_error_payload.1 Nat "u32" parse_u32 (Valid.mk "KEY" "abc")
    "invalid digit found in string" rfl

/-- C5: every conversion transition of the Valid and Parsed stages carries
the original validated string forward unchanged: the Parsed stage it produces
on success, and the Parse error it produces on failure, both hold exactly
the value string of the consumed stage; consequently (last conjunct, by
induction over an arbitrary chain of fallible conversions) the string
retained at every step of a chain, and the value field of a Parse error
raised at any step, is the original string that fed the first conversion,
never a rendering of an intermediate typed value. -/
theorem c5_chain_preserves_original_string :
    (∀ (T : Type) (tyT : String) (f : String → Except String T) (v : Valid),
      resultValue (v.then_try_fromstr_into tyT f) = some v.value) ∧
    (∀ (T : Type) (f : String → T) (v : Valid), (v.then_string_into f).value = v.value) ∧
    (∀ (T : Type) (tyT : String) (f : String → Except String T) (v : Valid),
      resultValue (v.then_try_string_into tyT f) = some v.value) ∧
    (∀ (T : Type) (f : String → T) (v : Valid), (v.then_str_into f).value = v.value) ∧
    (∀ (T : Type) (tyT : String) (f : String → Except String T) (v : Valid),
      resultValue (v.then_try_str_into tyT f) = some v.value) ∧
    (∀ (T : Type) (f : String → T) (v : Valid), (v.then_fn_string_into f).value = v.value) ∧
    (∀ (T : Type) (tyT : String) (f : String → Except String T) (v : Valid),
      resultValue (v.then_try_fn_string_into tyT f) = some v.value) ∧
    (∀ (T : Type) (f : String → T) (v : Valid), (v.then_fn_str_into f).value = v.value) ∧
    (∀ (T : Type) (tyT : String) (f : String → Except String T) (v : Valid),
      resultValue (v.then_try_fn_str_into tyT f) = some v.value) ∧
    (∀ (P T : Type) (f : P → T) (p : Parsed P), (p.then_into f).value = p.value) ∧
    (∀ (P T : Type) (tyP tyT : String) (f : P → Except String T) (p : Parsed P),
      resultValue (p.then_try_into tyP tyT f) = some p.value) ∧
    (∀ (P T : Type) (f : P → T) (p : Parsed P), (p.then_fn_into f).value = p.value) ∧
    (∀ (P T : Type) (tyP tyT : String) (f : P → Except String T) (p : Parsed P),
      resultValue (p.then_try_fn_into tyP tyT f) = some p.value) ∧
    (∀ (T : Type) (tyP tyT : String) (p : Parsed T) (fs : List (T → Except String T)),
      resultValue (fs.foldlM (fun q f => q.then_try_fn_into tyP tyT f) p) = some p.value) := by
  refine ⟨?_, fun T f v => rfl, ?_, fun T f v => rfl, ?_, fun T f v => rfl, ?_,
    fun T f v => rfl, ?_, fun P T f p => rfl, ?_, fun P T f p => rfl, ?_, ?_⟩
  · intro T tyT f v; cases h : f v.value <;> simp [Valid.then_try_fromstr_into, h, resultValue]
  · intro T tyT f v; cases h : f v.value <;> simp [Valid.then_try_string_into, h, resultValue]
  · intro T tyT f v; cases h : f v.value <;> simp [Valid.then_try_str_into, h, resultValue]
  · intro T tyT f v; cases h : f v.value <;> simp [Valid.then_try_fn_string_into, h, resultValue]
  · intro T tyT f v; cases h : f v.value <;> simp [Valid.then_try_fn_str_into, h, resultValue]
  · intro P T tyP tyT f p; cases h : f p.inner <;> simp [Parsed.then_try_into, h, resultValue]
  · intro P T tyP tyT f p; cases h : f p.inner <;> simp [Parsed.then_try_fn_into, h, resultValue]
  · intro T tyP tyT p fs
    induction fs generalizing p with
    | nil => rfl
    | cons g gs ih =>
      rw [List.foldlM_cons]
      cases h : g p.inner with
      | ok t =>
        have hstep : p.then_try_fn_into tyP tyT g =
            .ok { inner := t, key := p.key, value := p.value } := by
          simp [Parsed.then_try_fn_into, h]
        rw [hstep]
        simpa using ih { inner := t, key := p.key, value := p.value }
      | error e =>
        have hstep : p.then_try_fn_into tyP tyT g =
            .error (.parse p.key p.value tyP tyT e) := by
          simp [Parsed.then_try_fn_into, h]
        rw [hstep]
        rfl

/-- C7: every stage transition preserves the key: every Raw operation,
every Valid conversion and every Parsed conversion produces a successor
stage carrying exactly the key of the consumed stage, and every error any
of them produces carries that same key. -/
theorem c7_key_never_altered :
    (∀ r : Raw, resultKeyV r.required_unchecked = r.key) ∧
    (∀ r : Raw, resultKeyV r.required_checked = r.key) ∧
    (∀ r : Raw, r.optional_unchecked.elim True (fun v => v.key = r.key)) ∧
    (∀ r : Raw, match r.optional_checked with
      | .ok none => True
      | .ok (some v) => v.key = r.key
      | .error e => e.key = r.key) ∧
    (∀ (r : Raw) (d : String), (r.with_default_unchecked d).key = r.key) ∧
    (∀ (r : Raw) (d : String), (r.with_default_unchecked_sub_invalid d).key = r.key) ∧
    (∀ (r : Raw) (d : String), resultKeyV (r.with_default_checked d) = r.key) ∧
    (∀ (T : Type) (tyT : String) (f : String → Except String T) (v : Valid),
      resultKeyP (v.then_try_fromstr_into tyT f) = v.key) ∧
    (∀ (T : Type) (f : String → T) (v : Valid), (v.then_string_into f).key = v.key) ∧
    (∀ (T : Type) (tyT : String) (f : String → Except String T) (v : Valid),
      resultKeyP (v.then_try_string_into tyT f) = v.key) ∧
    (∀ (T : Type) (f : String → T) (v : Valid), (v.then_str_into f).key = v.key) ∧
    (∀ (T : Type) (tyT : String) (f : String → Except String T) (v : Valid),
      resultKeyP (v.then_try_str_into tyT f) = v.key) ∧
    (∀ (T : Type) (f : String → T) (v : Valid), (v.then_fn_string_into f).key = v.key) ∧
    (∀ (T : Type) (tyT : String) (f : String → Except String T) (v : Valid),
      resultKeyP (v.then_try_fn_string_into tyT f) = v.key) ∧
    (∀ (T : Type) (f : String → T) (v : Valid), (v.then_fn_str_into f).key = v.key) ∧
    (∀ (T : Type) (tyT : String) (f : String → Except String T) (v : Valid),
      resultKeyP (v.then_try_fn_str_into tyT f) = v.key) ∧
    (∀ (P T : Type) (f : P → T) (p : Parsed P), (p.then_into f).key = p.key) ∧
    (∀ (P T : Type) (tyP tyT : String) (f : P → Except String T) (p : Parsed P),
      resultKeyP (p.then_try_into tyP tyT f) = p.key) ∧
    (∀ (P T : Type) (f : P → T) (p : Parsed P), (p.then_fn_into f).key = p.key) ∧
    (∀ (P T : Type) (tyP tyT : String) (f : P → Except String T) (p : Parsed P),
      resultKeyP (p.then_try_fn_into tyP tyT f) = p.key) := by
  refine ⟨?_, ?_, ?_, ?_, ?_, ?_, ?_, ?_, fun T f v => rfl, ?_, fun T f v => rfl, ?_,
    fun T f v => rfl, ?_, fun T f v => rfl, ?_, fun P T f p => rfl, ?_,
    fun P T f p => rfl, ?_⟩
  · intro r; obtain ⟨k, v⟩ := r
    cases v with
    | none => rfl
    | some os => cases os <;> rfl
  · intro r; obtain ⟨k, v⟩ := r
    cases v with
    | none => rfl
    | some os => cases os <;> rfl
  · intro r; obtain ⟨k, v⟩ := r
    cases v with
    | none => trivial
    | some os => cases os <;> trivial
  · intro r; obtain ⟨k, v⟩ := r
    cases v with
    | none => trivial
    | some os => cases os <;> trivial
  · intro r d; obtain ⟨k, v⟩ := r
    cases v with
    | none => rfl
    | some os => cases os <;> rfl
  · intro r d; obtain ⟨k, v⟩ := r
    cases v with
    | none => rfl
    | some os => cases os <;> rfl
  · intro r d; obtain ⟨k, v⟩ := r
    cases v with
    | none => rfl
    | some os => cases os <;> rfl
  · intro T tyT f v; cases h : f v.value <;> simp [Valid.then_try_fromstr_into, h, resultKeyP, Error.key]
  · intro T tyT f v; cases h : f v.value <;> simp [Valid.then_try_string_into, h, resultKeyP, Error.key]
  · intro T tyT f v; cases h : f v.value <;> simp [Valid.then_try_str_into, h, resultKeyP, Error.key]
  · intro T tyT f v; cases h : f v.value <;> simp [Valid.then_try_fn_string_into, h, resultKeyP, Error.key]
  · intro T tyT f v; cases h : f v.value <;> simp [Valid.then_try_fn_str_into, h, resultKeyP, Error.key]
  · intro P T tyP tyT f p; cases h : f p.inner <;> simp [Parsed.then_try_into, h, resultKeyP, Error.key]
  · intro P T tyP tyT f p; cases h : f p.inner <;> simp [Parsed.then_try_fn_into, h, resultKeyP, Error.key]

/-- C8: the environment accessor is a deterministic, side-effect-free
function of the key and the current environment: the lookup result is
exactly the key paired with the value of the environment map at that key,
the environment is unchanged by a call, and a second call with the same key
and no intervening mutation yields an identical Raw stage. -/
theorem c8_get_idempotent (env : Env) (k : String) :
    getS env k = (Raw.mk k (env k), env) ∧
    (getS (getS env k).2 k).1 = (getS env k).1 ∧
    get env k = get env k :=
  ⟨rfl, rfl, rfl⟩

/-- C9: a then_into conversion followed by a lossless reverse conversion
(a left inverse of the forward conversion) reproduces the prior Parsed stage
exactly: same typed value, same key and same retained string. -/
theorem c9_then_into_roundtrip (P T : Type) (p : Parsed P) (f : P → T) (g : T → P)
    (h : ∀ x, g (f x) = x) :
    (p.then_into f).then_into g = p := by
  obtain ⟨k, v, i⟩ := p
  simp [Parsed.then_into, h]

/-- Closed witness for C9: round trip from Nat to Int and back at a concrete
Parsed stage. -/
theorem c9_then_into_roundtrip_witness :
    ((Parsed.mk "PORT" "5" (5 : Nat)).then_into Int.ofNat).then_into Int.toNat =
      Parsed.mk "PORT" "5" (5 : Nat) :=
  c9_then_into_roundtrip Nat Int (Parsed.mk "PORT" "5" 5) Int.ofNat Int.toNat
    (fun _ => rfl)

/-- C10: the into_inner operation of each stage returns its wrapped value
unchanged and discards the key: Raw gives back the optional OS value, Valid
the validated string, and Parsed the typed value (discarding the diagnostic
string as well); none of them can fail. -/
theorem c10_into_inner_identity {P : Type} (r : Raw) (v : Valid) (p : Parsed P) :
    r.into_inner = r.value ∧ v.into_inner = v.value ∧ p.into_inner = p.inner :=
  ⟨rfl, rfl, rfl⟩

end EnvUtil
